import Mathlib

/-!
Shallow embedding of src/app.py, the transaction aggregation engine of a
fraud-monitoring dashboard.  The engine loads a delimited text file read by
pandas read_csv with dtype=str and keep_default_na=False (so every cell is a
raw string), normalizes it (fraud flag extraction, timestamp and dob parsing,
float coercion of merchant coordinates) and answers six query functions.

Modelling choices, each noted again at the definition it concerns:
* A raw file is a header plus rows of string cells; a missing or unreadable
  file is the input value none.
* pd.to_datetime is abstracted as a parameter of type String to Option Int
  (epoch seconds; unparsable gives none, as errors="coerce" gives NaT).  All
  universally quantified theorems hold for every such parameter, hence for
  the actual pandas parser; concrete counterexamples instantiate it with a
  table that agrees with pandas on the strings that occur in them.
* Python floats are modelled as exact decimals num / 10 ^ exp.  Equality and
  order of such values use cross multiplication, matching float value
  semantics on the in-range decimal literals the claims involve.
* pandas sorts: groupby(sort=True) orders group keys ascending;
  sort_values / value_counts with ascending=False compute a stable ascending
  argsort and reverse it (pandas.core.sorting.nargsort), so the descending
  sorts below are reverse of a stable ascending insertion sort.  Within equal
  counts the resulting order is a library detail; no theorem below relies on
  it except where a comment argues robustness.
-/

/-- A raw delimited file as pandas read_csv returns it with dtype=str and
keep_default_na=False: a header of column names and rows of string cells. -/
structure RawTable where
  header : List String
  rows : List (List String)

/-- EXPECTED_COLS of app.py lines 9 to 15: the canonical 27-column schema used
for positional header repair. -/
def EXPECTED_COLS : List String :=
  ["transaction_id", "ssn", "cc_num", "first_name", "last_name", "gender",
   "street", "city", "state", "zip", "home_lat", "home_long", "city_population",
   "job", "dob", "account_number", "trans_num", "trans_date", "trans_time",
   "unix_time", "category", "amt", "merchant", "merch_lat", "merch_long",
   "is_fraud", "local_timestamp"]

/-- The first maximal run of decimal digits in a character list, none when no
digit occurs: the regex group of str.extract at app.py line 38. -/
def firstDigitRun : List Char → Option (List Char)
  | [] => none
  | c :: cs => if c.isDigit then some (c :: cs.takeWhile Char.isDigit) else firstDigitRun cs

/-- The number a list of decimal digit characters denotes. -/
def digitsToNat (cs : List Char) : Nat :=
  cs.foldl (fun a c => a * 10 + (c.toNat - 48)) 0

/-- Lines 38 and 39 of app.py: extract the first run of digits from the raw
is_fraud value, coerce to int, default 0 when the string holds no digit
(pd.to_numeric of the extracted run never fails, and fillna(0) covers the
no-match case). -/
def extractFraudFlag (s : String) : Nat :=
  match firstDigitRun s.data with
  | none => 0
  | some cs => digitsToNat cs

/-- An exactly represented decimal value num / 10 ^ exp, the model of the
Python floats safe_float produces.  The representation is not normalized;
equality and order of values are by cross multiplication. -/
structure Dec where
  num : Int
  exp : Nat
deriving DecidableEq

/-- Value equality of decimals, the float equality pandas groups by. -/
instance : BEq Dec :=
  ⟨fun a b => a.num * 10 ^ b.exp == b.num * 10 ^ a.exp⟩

/-- Value order of decimals, Bool valued so that concrete sorts reduce. -/
def Dec.leB (a b : Dec) : Bool :=
  a.num * 10 ^ b.exp ≤ b.num * 10 ^ a.exp

/-- Strict value order of decimals. -/
def Dec.ltB (a b : Dec) : Bool :=
  a.num * 10 ^ b.exp < b.num * 10 ^ a.exp

/-- The rational value of a decimal. -/
def Dec.toRat (d : Dec) : ℚ := (d.num : ℚ) / 10 ^ d.exp

/-- Python str.strip with no argument: drop unicode whitespace from both ends. -/
def trimChars (cs : List Char) : List Char :=
  ((cs.dropWhile Char.isWhitespace).reverse.dropWhile Char.isWhitespace).reverse

/-- Python replace(",", ".") for a one-character pattern: map every comma to a
dot (app.py line 21). -/
def replaceCommaDot (cs : List Char) : List Char :=
  cs.map (fun c => if c = ',' then '.' else c)

/-- Lexicographic order on character lists by code point, as Python compares
strings. -/
def charListLt : List Char → List Char → Bool
  | [], [] => false
  | [], _ :: _ => true
  | _ :: _, [] => false
  | a :: as, b :: bs => if a < b then true else if b < a then false else charListLt as bs

/-- An optional leading sign; true means negative. -/
def splitSign : List Char → Bool × List Char
  | '-' :: cs => (true, cs)
  | '+' :: cs => (false, cs)
  | cs => (false, cs)

/-- Every character is a decimal digit. -/
def allDigits (cs : List Char) : Bool := cs.all Char.isDigit

/-- The unsigned mantissa of a Python float literal: digits with at most one
dot and at least one digit in total ("12", "12.5", "1.", ".5"; "" and "."
fail).  Returns the exact decimal value. -/
def parseMantissa (cs : List Char) : Option Dec :=
  match cs.span (fun c => c != '.') with
  | (ip, []) =>
      if ip ≠ [] && allDigits ip then some ⟨digitsToNat ip, 0⟩ else none
  | (ip, _ :: fp) =>
      if (ip ≠ [] || fp ≠ []) && allDigits ip && allDigits fp then
        some ⟨digitsToNat (ip ++ fp), fp.length⟩
      else none

/-- The signed integer exponent after e or E. -/
def parseExpo (cs : List Char) : Option Int :=
  let (neg, ds) := splitSign cs
  if ds ≠ [] && allDigits ds then
    some (if neg then -(digitsToNat ds : Int) else (digitsToNat ds : Int))
  else none

/-- Scale a decimal by 10 ^ z. -/
def scaleByPow10 (d : Dec) (z : Int) : Dec :=
  if 0 ≤ z then ⟨d.num * 10 ^ z.toNat, d.exp⟩ else ⟨d.num, d.exp + (-z).toNat⟩

/-- The Python float() grammar on a stripped string: optional sign, mantissa,
optional exponent part.  The special spellings inf and nan, digit-group
underscores and overflow to OverflowError are not modelled; none of the
claims involves them. -/
def parsePyFloat (cs : List Char) : Option Dec :=
  let (neg, body) := splitSign cs
  let signed : Dec → Dec := fun d => if neg then ⟨-d.num, d.exp⟩ else d
  match body.span (fun c => c != 'e' && c != 'E') with
  | (m, []) => (parseMantissa m).map signed
  | (m, _ :: ex) =>
      match parseMantissa m, parseExpo ex with
      | some d, some z => some (signed (scaleByPow10 d z))
      | _, _ => none

/-- safe_float of app.py lines 17 to 24: strip whitespace, replace comma with
dot, attempt a float parse; any failure yields none and never raises.  The
x is None entry case does not arise because every cell read with dtype=str is
a string. -/
def safe_float (x : String) : Option Dec :=
  parsePyFloat (replaceCommaDot (trimChars x.data))

/-- One normalized transaction record: exactly the columns the six queries
read, after the derivations of load_data.  Raw text columns the queries use
are kept as strings; the derived ones carry their parsed form. -/
structure Record where
  is_fraud : Nat
  local_timestamp : Option Int
  age : Option Int
  category : String
  state : String
  merchant : String
  merch_lat_f : Option Dec
  merch_long_f : Option Dec
deriving DecidableEq

/-- The normalized dataset: the rows plus which of the raw columns the
queries test for (category, state) or read unguarded (merchant) were
present, and whether the dob column was present — dob presence decides the
dtype of the derived age column (numeric with NaN holes when present, the
all-None object column of load_data line 49 when absent), which in turn
decides whether pd.cut can run on it.  The derived columns is_fraud,
local_timestamp, age, merch_lat_f and merch_long_f exist on every loaded
frame, so they are plain record fields. -/
structure Dataset where
  rows : List Record
  hasCategory : Bool
  hasState : Bool
  hasMerchant : Bool
  hasDob : Bool
deriving DecidableEq

/-- Index of the first column with the given name.  read_csv mangles duplicate
header names (the second of two equal names becomes name.1), so the first
occurrence is the one the plain name denotes. -/
def findCol (header : List String) (name : String) : Option Nat :=
  header.findIdx? (· == name)

/-- The cell of a row at a column index; out of range gives the empty string. -/
def cell (row : List String) (j : Nat) : String := row.getD j ""

/-- Lines 34 and 35 of app.py: if the header lacks local_timestamp and the
column count equals the canonical 27, rename the columns positionally to
EXPECTED_COLS; otherwise use the header as is. -/
def repairedHeader (h : List String) : List String :=
  if "local_timestamp" ∉ h ∧ h.length = EXPECTED_COLS.length then EXPECTED_COLS else h

/-- The derivations of load_data (app.py lines 37 to 52) applied to one raw
row under header h.  pt and pdob stand for pd.to_datetime with
errors="coerce" on the timestamp and dob columns (epoch seconds, none for
NaT); now is pd.Timestamp.now() in epoch seconds.  Age is the day difference
floored, floor-divided by 365, as timedelta days and Python // behave.  A
missing source column yields the all-default derived column. -/
def mkRecord (h : List String) (pt pdob : String → Option Int) (now : Int)
    (row : List String) : Record :=
  { is_fraud :=
      match findCol h "is_fraud" with
      | some j => extractFraudFlag (cell row j)
      | none => 0
    local_timestamp := (findCol h "local_timestamp").bind (fun j => pt (cell row j))
    age :=
      match findCol h "dob" with
      | some j => (pdob (cell row j)).map (fun d => ((now - d).fdiv 86400).fdiv 365)
      | none => none
    category := (findCol h "category").elim "" (fun j => cell row j)
    state := (findCol h "state").elim "" (fun j => cell row j)
    merchant := (findCol h "merchant").elim "" (fun j => cell row j)
    merch_lat_f := (findCol h "merch_lat").bind (fun j => safe_float (cell row j))
    merch_long_f := (findCol h "merch_long").bind (fun j => safe_float (cell row j)) }

/-- load_data of app.py lines 26 to 53.  The input none models a missing file
(os.path.isfile false) or a read_csv failure, both of which return an empty
frame; some t is the parsed file.  Loading maps every raw row to a record and
never drops or adds a row. -/
def load_data (inp : Option RawTable) (pt pdob : String → Option Int) (now : Int) : Dataset :=
  match inp with
  | none => ⟨[], false, false, false, false⟩
  | some t =>
      let h := repairedHeader t.header
      { rows := t.rows.map (mkRecord h pt pdob now)
        hasCategory := h.contains "category"
        hasState := h.contains "state"
        hasMerchant := h.contains "merchant"
        hasDob := h.contains "dob" }

/-- The comparison df local_timestamp >= cutoff: NaT (none) compares false, so
a record with null timestamp fails every window test. -/
def tsGe (t : Option Int) (cutoff : Int) : Bool :=
  match t with
  | none => false
  | some x => cutoff ≤ x

/-- The row mask of get_fraud_count: is_fraud == 1 and timestamp at or after
the cutoff. -/
def fraudRecentMask (cutoff : Int) (r : Record) : Bool :=
  r.is_fraud == 1 && tsGe r.local_timestamp cutoff

/-- get_fraud_count of app.py lines 56 to 62: count of records with
is_fraud == 1 and local_timestamp at or after now minus the window, as an
integer; 0 on an empty frame.  The cutoff is pd.Timestamp.now() minus
pd.Timedelta(hours=hours), that is 3600 * hours seconds before now. -/
def get_fraud_count (inp : Option RawTable) (pt pdob : String → Option Int)
    (now : Int) (hours : Int) : Nat :=
  let df := load_data inp pt pdob now
  if df.rows.isEmpty then 0
  else df.rows.countP (fraudRecentMask (now - 3600 * hours))

/-- Round to the nearest integer, ties to the even integer: the rounding of
Python round on the exact value. -/
def roundHalfEven (q : ℚ) : ℤ :=
  if q - ⌊q⌋ < 1/2 then ⌊q⌋
  else if 1/2 < q - ⌊q⌋ then ⌊q⌋ + 1
  else if ⌊q⌋ % 2 = 0 then ⌊q⌋ else ⌊q⌋ + 1

/-- Python round(x, 2) on the exact value: round half to even at two decimal
places. -/
def pyRound2 (q : ℚ) : ℚ := (roundHalfEven (q * 100) : ℚ) / 100

/-- get_fraud_ratio_5min of app.py lines 64 to 74: among records with
local_timestamp at or after now minus 5 minutes, 100 times the fraud share,
rounded to 2 decimals; 0.0 on an empty frame or empty window. -/
def get_fraud_ratio_5min (inp : Option RawTable) (pt pdob : String → Option Int)
    (now : Int) : ℚ :=
  let df := load_data inp pt pdob now
  if df.rows.isEmpty then 0
  else
    let recent := df.rows.filter (fun r => tsGe r.local_timestamp (now - 300))
    if recent.isEmpty then 0
    else
      let total : ℚ := recent.length
      let frauds : ℚ := recent.countP (fun r => r.is_fraud == 1)
      pyRound2 (frauds / total * 100)

/-- The distinct values of a list in order of first appearance. -/
def firstSeenKeys {α : Type} [BEq α] (xs : List α) : List α :=
  xs.foldl (fun acc x => if acc.contains x then acc else acc ++ [x]) []

/-- Series.value_counts(): one entry per distinct value with its frequency,
sorted descending by count.  pandas collects the keys and then sorts the
counts with a stable ascending argsort reversed for descending order
(pandas.core.sorting.nargsort); the stable ascending sort is modelled by
insertion sort, which is stable.  The order of the keys before the sort, and
hence the order within equal counts, is a hash-table detail of pandas that no
theorem below depends on; first-seen order stands in for it. -/
def value_counts {α : Type} [BEq α] (xs : List α) : List (α × Nat) :=
  (List.insertionSort (fun a b => a.2 ≤ b.2)
    ((firstSeenKeys xs).map (fun k => (k, xs.count k)))).reverse

/-- get_top_categories of app.py lines 76 to 81: frequency of category among
fraud records, descending, first n; empty when the frame is empty or the
category column is missing. -/
def get_top_categories (inp : Option RawTable) (pt pdob : String → Option Int)
    (now : Int) (n : Nat) : List (String × Nat) :=
  let df := load_data inp pt pdob now
  if df.rows.isEmpty || !df.hasCategory then []
  else
    (value_counts ((df.rows.filter (fun r => r.is_fraud == 1)).map Record.category)).take n

/-- The five fixed age labels of app.py line 91. -/
def ageLabels : List String := ["<25", "25-34", "35-44", "45-54", "55+"]

/-- pd.cut with bins [0, 25, 35, 45, 55, 120] and right=False: the index of
the left-closed right-open bin an age falls in, none for a null age or an age
outside every bin. -/
def binOf (a : Option Int) : Option Nat :=
  match a with
  | none => none
  | some x =>
      if 0 ≤ x ∧ x < 25 then some 0
      else if 25 ≤ x ∧ x < 35 then some 1
      else if 35 ≤ x ∧ x < 45 then some 2
      else if 45 ≤ x ∧ x < 55 then some 3
      else if 55 ≤ x ∧ x < 120 then some 4
      else none

/-- get_age_distribution of app.py lines 83 to 94: on a non-empty frame with
at least one fraud record and a dob column, the count of fraud records per
age bin, one entry per label in the fixed label order (value_counts
reindexed by the five labels with fill value 0 is exactly the per-label
count in label order); an empty frame or no fraud records give the empty
list.  When the dob column is absent, load_data line 49 sets the age column
to the scalar None — an all-None object column — and pd.cut at line 92 then
raises TypeError comparing the integer bin edges with None before any NA
masking: modelled as the error value.  When the dob column is present the
age column is numeric (NaN where dob is unparsable) and pd.cut excludes the
NaN ages.  The age column membership test of line 85 cannot fail on a
non-empty loaded frame because load_data always creates the column. -/
def get_age_distribution (inp : Option RawTable) (pt pdob : String → Option Int)
    (now : Int) : Except Unit (List (String × Nat)) :=
  let df := load_data inp pt pdob now
  if df.rows.isEmpty then .ok []
  else
    let df_fraud := df.rows.filter (fun r => r.is_fraud == 1)
    if df_fraud.isEmpty then .ok []
    else if !df.hasDob then .error ()
    else
      .ok ((List.range 5).map (fun k =>
        (ageLabels.getD k "", df_fraud.countP (fun r => binOf r.age == some k))))

/-- One output row of get_top_merchant_locations. -/
structure MerchLoc where
  merchant : String
  count : Nat
  merch_lat : Dec
  merch_long : Dec
deriving DecidableEq

/-- The groupby key order on (merchant, lat, long): lexicographic with string
order on the merchant and value order on the coordinates, Bool valued so that
concrete sorts reduce. -/
def keyLeB (a b : String × Dec × Dec) : Bool :=
  if charListLt a.1.data b.1.data then true
  else if charListLt b.1.data a.1.data then false
  else if a.2.1.ltB b.2.1 then true
  else if b.2.1.ltB a.2.1 then false
  else a.2.2.leB b.2.2

/-- get_top_merchant_locations of app.py lines 96 to 112: among fraud records
with both coordinates parsed, group by the (merchant, lat, long) triple with
groupby(sort=True), which orders the group keys ascending, then sort
descending by count (stable ascending argsort reversed) and keep the first n.
When the merchant column is missing and the grouped frame is non-empty, the
groupby raises KeyError, modelled as the error value: this is the one query
without a missing-column guard. -/
def get_top_merchant_locations (inp : Option RawTable) (pt pdob : String → Option Int)
    (now : Int) (n : Nat) : Except Unit (List MerchLoc) :=
  let df := load_data inp pt pdob now
  if df.rows.isEmpty then .ok []
  else
    let df_fraud := df.rows.filter (fun r => r.is_fraud == 1)
    if df_fraud.isEmpty then .ok []
    else
      let df_coords := df_fraud.filter (fun r =>
        r.merch_lat_f.isSome && r.merch_long_f.isSome)
      if df_coords.isEmpty then .ok []
      else if !df.hasMerchant then .error ()
      else
        let triples := df_coords.filterMap (fun r =>
          match r.merch_lat_f, r.merch_long_f with
          | some la, some lo => some (r.merchant, la, lo)
          | _, _ => none)
        let grouped := (List.insertionSort (fun a b => keyLeB a b = true)
            (firstSeenKeys triples)).map (fun k => (k, triples.count k))
        let top := ((List.insertionSort (fun a b => a.2 ≤ b.2) grouped).reverse).take n
        .ok (top.map (fun g => ⟨g.1.1, g.2, g.1.2.1, g.1.2.2⟩))

/-- get_top_states of app.py lines 114 to 120: frequency of state among fraud
records, descending, first n; empty when the frame is empty or the state
column is missing. -/
def get_top_states (inp : Option RawTable) (pt pdob : String → Option Int)
    (now : Int) (n : Nat) : List (String × Nat) :=
  let df := load_data inp pt pdob now
  if df.rows.isEmpty || !df.hasState then []
  else
    (value_counts ((df.rows.filter (fun r => r.is_fraud == 1)).map Record.state)).take n

/-- The list a sequence-returning query delivered, the empty list for the
raised case. -/
def okList {α : Type} : Except Unit (List α) → List α
  | .ok l => l
  | .error _ => []

/-- Whether a query raised. -/
def isErr {α : Type} : Except Unit α → Bool
  | .ok _ => false
  | .error _ => true

/-- The parse table that parses nothing: an admissible pd.to_datetime
abstraction for cells that are not timestamps. -/
def noParse : String → Option Int := fun _ => none

/-- The fraud records with both coordinates parsed, as get_top_merchant_locations
filters them before grouping. -/
def coordFraudRows (d : Dataset) : List Record :=
  (d.rows.filter (fun r => r.is_fraud == 1)).filter (fun r =>
    r.merch_lat_f.isSome && r.merch_long_f.isSome)

/-- A dataset whose fraud records carry three distinct merchants, first seen
in the order c, a, b, each with one fraud record and distinct coordinates:
the tied-count case of the top-merchant ranking. -/
def tiedMerchantsTable : RawTable :=
  ⟨["local_timestamp", "is_fraud", "merchant", "merch_lat", "merch_long"],
   [["x", "1", "c", "3", "3"],
    ["x", "1", "a", "1", "1"],
    ["x", "1", "b", "2", "2"]]⟩

/-- C9: safe_float trims whitespace, replaces each comma with a dot, then
attempts a float parse and returns none on any failure: the value of "12,5"
is 12.5, "abc" and "" give none, and surrounding whitespace is ignored. -/
theorem c9_safe_float_spec :
    (safe_float "12,5").map Dec.toRat = some (25/2 : ℚ) ∧
    safe_float "abc" = none ∧
    safe_float "" = none ∧
    (safe_float "  12,5  ").map Dec.toRat = some (25/2 : ℚ) ∧
    (∀ s : String, safe_float s = parsePyFloat (replaceCommaDot (trimChars s.data))) := by
  have h1 : safe_float "12,5" = some ⟨125, 1⟩ := by decide
  have h2 : safe_float "  12,5  " = some ⟨125, 1⟩ := by decide
  refine ⟨?_, by decide, by decide, ?_, fun s => rfl⟩
  · rw [h1]
    norm_num [Dec.toRat]
  · rw [h2]
    norm_num [Dec.toRat]

/-- C6: a missing or unreadable dataset file loads as the empty dataset and
every query returns its documented zero value (0, 0, the empty list), never
an error. -/
theorem c6_missing_file_zero_values (pt pdob : String → Option Int) (now h : Int) (n : Nat) :
    load_data none pt pdob now = ⟨[], false, false, false, false⟩ ∧
    get_fraud_count none pt pdob now h = 0 ∧
    get_fraud_ratio_5min none pt pdob now = 0 ∧
    get_top_categories none pt pdob now n = [] ∧
    get_age_distribution none pt pdob now = .ok [] ∧
    get_top_merchant_locations none pt pdob now n = .ok [] ∧
    get_top_states none pt pdob now n = [] :=
  ⟨rfl, rfl, rfl, rfl, rfl, rfl, rfl⟩

/-- C8: loading and normalization never drop a row — whatever the field
contents, the normalized dataset has exactly as many rows as the parsed
input. -/
theorem c8_load_preserves_row_count (t : RawTable) (pt pdob : String → Option Int) (now : Int) :
    (load_data (some t) pt pdob now).rows.length = t.rows.length := by
  simp [load_data]

/-- C3 (amended): the normalized is_fraud field of every record equals the
first run of digits of the raw cell coerced to int, 0 when the column is
missing or the cell holds no digit — so "1.0" gives 1, "yes" gives 0 and "0"
gives 0 — but it is not restricted to 0 or 1 (see the counterexample); the
queries treat exactly the value 1 as fraud. -/
theorem c3_is_fraud_extraction (t : RawTable) (pt pdob : String → Option Int) (now : Int) :
    (load_data (some t) pt pdob now).rows.map Record.is_fraud
      = t.rows.map (fun row =>
          match findCol (repairedHeader t.header) "is_fraud" with
          | some j => extractFraudFlag (cell row j)
          | none => 0) ∧
    extractFraudFlag "1.0" = 1 ∧ extractFraudFlag "yes" = 0 ∧ extractFraudFlag "0" = 0 := by
  refine ⟨?_, by decide, by decide, by decide⟩
  simp only [load_data, List.map_map]
  rfl

/-- C3 is false as stated: a raw is_fraud cell "23" normalizes to the integer
23, which is neither 0 nor 1 — the digit-run extraction is not clamped to
0/1. -/
theorem c3_counterexample :
    (load_data (some ⟨["local_timestamp", "is_fraud"], [["x", "23"]]⟩)
        noParse noParse 0).rows.map Record.is_fraud = [23] ∧
    (23 : Nat) ≠ 0 ∧ (23 : Nat) ≠ 1 := by decide

/-- C5 (amended): get_fraud_count returns exactly the number of records with
is_fraud == 1 whose non-null local_timestamp is at or after now − windowHours;
the comparison has no upper bound at now, so later timestamps are counted
too.  Records with null local_timestamp are never counted but stay in the
dataset (see the row-count theorem of C8). -/
theorem c5_fraud_count_window (inp : Option RawTable) (pt pdob : String → Option Int)
    (now hours : Int) :
    get_fraud_count inp pt pdob now hours
      = ((load_data inp pt pdob now).rows.filter (fun r =>
          r.is_fraud == 1 && r.local_timestamp.any (fun ts => now - 3600 * hours ≤ ts))).length := by
  unfold get_fraud_count
  dsimp only
  split
  · next hEmpty =>
      rw [List.isEmpty_iff] at hEmpty
      rw [hEmpty]
      rfl
  · have hpred : fraudRecentMask (now - 3600 * hours)
        = (fun r : Record => r.is_fraud == 1
            && r.local_timestamp.any (fun ts => now - 3600 * hours ≤ ts)) := by
      funext r
      unfold fraudRecentMask tsGe
      cases r.local_timestamp <;> rfl
    rw [List.countP_eq_length_filter, hpred]

/-- C5 is false as stated: a fraud record whose timestamp lies after now is
counted by get_fraud_count although it is outside the window
[now − windowHours, now].  Here now is 2023-11-14 22:13:20 UTC (epoch
1700000000) and the record carries 2023-11-15 00:00:00 UTC (epoch
1700006400), one hour and 47 minutes in the future. -/
theorem c5_counterexample :
    get_fraud_count (some ⟨["local_timestamp", "is_fraud"], [["2023-11-15 00:00:00", "1"]]⟩)
        (fun s => if s = "2023-11-15 00:00:00" then some 1700006400 else none)
        noParse 1700000000 1 = 1 ∧
    ((load_data (some ⟨["local_timestamp", "is_fraud"], [["2023-11-15 00:00:00", "1"]]⟩)
        (fun s => if s = "2023-11-15 00:00:00" then some 1700006400 else none)
        noParse 1700000000).rows.filter (fun r =>
          r.is_fraud == 1 && r.local_timestamp.any (fun ts =>
            1700000000 - 3600 * 1 ≤ ts && ts ≤ 1700000000))).length = 0 := by
  constructor
  · decide
  · decide

/-- C10: for a fixed dataset and reference time, get_fraud_count is monotone
non-decreasing in the window length. -/
theorem c10_fraud_count_monotone (inp : Option RawTable) (pt pdob : String → Option Int)
    (now h1 h2 : Int) (h0 : 0 ≤ h1) (h12 : h1 ≤ h2) :
    get_fraud_count inp pt pdob now h1 ≤ get_fraud_count inp pt pdob now h2 := by
  unfold get_fraud_count
  dsimp only
  split
  · exact Nat.le_refl 0
  · apply List.countP_mono_left
    intro r _ hp
    simp only [fraudRecentMask, Bool.and_eq_true] at hp ⊢
    refine ⟨hp.1, ?_⟩
    have ht := hp.2
    unfold tsGe at ht ⊢
    cases hts : r.local_timestamp with
    | none => rw [hts] at ht; exact absurd ht (by simp)
    | some x =>
        rw [hts] at ht
        simp only [decide_eq_true_eq] at ht ⊢
        have : 3600 * h1 ≤ 3600 * h2 := by linarith
        linarith

/-- Witness for C10 at a concrete input. -/
theorem c10_witness :
    get_fraud_count none noParse noParse 0 1 ≤ get_fraud_count none noParse noParse 0 2 :=
  c10_fraud_count_monotone none noParse noParse 0 1 2 (by decide) (by decide)

/-- C2 (amended): four of the six queries return a value on every input;
get_top_merchant_locations raises (the KeyError of grouping by the absent
merchant column) exactly when the merchant column is missing while at least
one fraud record has both coordinates parsed, get_age_distribution raises
(the TypeError of pd.cut on the all-None object age column) exactly when
the dob column is missing while at least one fraud record exists, and both
return a value in every other case. -/
theorem c2_error_characterization (inp : Option RawTable) (pt pdob : String → Option Int)
    (now : Int) (n : Nat) :
    (isErr (get_top_merchant_locations inp pt pdob now n)
      = (!(load_data inp pt pdob now).hasMerchant
          && !(coordFraudRows (load_data inp pt pdob now)).isEmpty)) ∧
    (isErr (get_age_distribution inp pt pdob now)
      = (!(load_data inp pt pdob now).hasDob
          && !((load_data inp pt pdob now).rows.filter
                (fun r => r.is_fraud == 1)).isEmpty)) := by
  constructor
  · unfold get_top_merchant_locations coordFraudRows
    dsimp only
    split
    · next hEmpty =>
        rw [List.isEmpty_iff] at hEmpty
        rw [hEmpty]
        simp [isErr]
    · split
      · next hFr =>
          rw [List.isEmpty_iff] at hFr
          rw [hFr]
          simp [isErr]
      · split
        · next hCo =>
            rw [List.isEmpty_iff] at hCo
            rw [hCo]
            simp [isErr]
        · next hCo =>
            have hCo2 : (List.filter (fun r => r.merch_lat_f.isSome && r.merch_long_f.isSome)
                  (List.filter (fun r => r.is_fraud == 1)
                    (load_data inp pt pdob now).rows)).isEmpty = false :=
              Bool.eq_false_iff.mpr hCo
            split
            · next hM =>
                have hM2 : (load_data inp pt pdob now).hasMerchant = false := by
                  simpa using hM
                rw [hM2, hCo2]
                simp [isErr]
            · next hM =>
                have hM2 : (load_data inp pt pdob now).hasMerchant = true := by
                  simpa using hM
                rw [hM2]
                simp [isErr]
  · unfold get_age_distribution
    dsimp only
    split
    · next hEm =>
        rw [List.isEmpty_iff] at hEm
        rw [hEm]
        simp [isErr]
    · split
      · next hF =>
          rw [hF]
          simp [isErr]
      · next hF =>
          have hF2 : ((load_data inp pt pdob now).rows.filter
              (fun r => r.is_fraud == 1)).isEmpty = false :=
            Bool.eq_false_iff.mpr hF
          split
          · next hD =>
              have hD2 : (load_data inp pt pdob now).hasDob = false := by
                simpa using hD
              rw [hD2, hF2]
              simp [isErr]
          · next hD =>
              have hD2 : (load_data inp pt pdob now).hasDob = true := by
                simpa using hD
              rw [hD2]
              simp [isErr]

/-- C2 is false as stated: on a dataset whose header lacks the merchant
column while a fraud record carries parseable coordinates,
get_top_merchant_locations reaches the groupby on the merchant column and
raises a KeyError instead of degrading to an empty result. -/
theorem c2_counterexample :
    isErr (get_top_merchant_locations
      (some ⟨["local_timestamp", "is_fraud", "merch_lat", "merch_long"],
             [["x", "1", "1.5", "2.5"]]⟩)
      noParse noParse 0 5) = true := by decide

/-- Round half to even never leaves the floor-to-ceiling range of its
argument. -/
theorem roundHalfEven_bounds (q : ℚ) : ⌊q⌋ ≤ roundHalfEven q ∧ roundHalfEven q ≤ ⌈q⌉ := by
  unfold roundHalfEven
  have hfl : (⌊q⌋ : ℚ) ≤ q := Int.floor_le q
  have hfc : ⌊q⌋ ≤ ⌈q⌉ := Int.floor_le_ceil q
  split_ifs with h1 h2 h3
  · exact ⟨le_refl _, hfc⟩
  · refine ⟨by omega, ?_⟩
    rw [Int.add_one_le_ceil_iff]
    linarith
  · exact ⟨le_refl _, hfc⟩
  · refine ⟨by omega, ?_⟩
    rw [Int.add_one_le_ceil_iff]
    have h5 : (1:ℚ)/2 ≤ q - ⌊q⌋ := le_of_not_lt h1
    linarith

/-- Rounding at two decimals maps [0, 100] into [0, 100]. -/
theorem pyRound2_bounds {q : ℚ} (h0 : 0 ≤ q) (h1 : q ≤ 100) :
    0 ≤ pyRound2 q ∧ pyRound2 q ≤ 100 := by
  obtain ⟨hl, hr⟩ := roundHalfEven_bounds (q * 100)
  have hfl0 : (0:ℤ) ≤ ⌊q * 100⌋ := Int.floor_nonneg.mpr (by positivity)
  have hcu : ⌈q * 100⌉ ≤ (10000:ℤ) := Int.ceil_le.mpr (by push_cast; linarith)
  unfold pyRound2
  constructor
  · apply div_nonneg _ (by norm_num)
    exact_mod_cast le_trans hfl0 hl
  · rw [div_le_iff₀ (by norm_num : (0:ℚ) < 100)]
    have h2 : roundHalfEven (q * 100) ≤ 10000 := le_trans hr hcu
    calc ((roundHalfEven (q * 100) : ℤ) : ℚ) ≤ ((10000 : ℤ) : ℚ) := by exact_mod_cast h2
      _ = 100 * 100 := by norm_num

/-- C7: get_fraud_ratio_5min is 100 times the fraud share of the records in
the 5-minute window, rounded half to even at two decimal places; it always
lies in [0, 100] and is exactly 0 when the window holds no record, so the
division by the window size is never reached with a zero divisor. -/
theorem c7_ratio_bounds (inp : Option RawTable) (pt pdob : String → Option Int) (now : Int) :
    0 ≤ get_fraud_ratio_5min inp pt pdob now ∧
    get_fraud_ratio_5min inp pt pdob now ≤ 100 ∧
    (((load_data inp pt pdob now).rows.filter
        (fun r => tsGe r.local_timestamp (now - 300))).isEmpty = true →
      get_fraud_ratio_5min inp pt pdob now = 0) ∧
    ((load_data inp pt pdob now).rows.isEmpty = false →
      ((load_data inp pt pdob now).rows.filter
        (fun r => tsGe r.local_timestamp (now - 300))).isEmpty = false →
      get_fraud_ratio_5min inp pt pdob now
        = pyRound2 ((((load_data inp pt pdob now).rows.filter
              (fun r => tsGe r.local_timestamp (now - 300))).countP
                (fun r => r.is_fraud == 1) : ℚ)
            / (((load_data inp pt pdob now).rows.filter
              (fun r => tsGe r.local_timestamp (now - 300))).length : ℚ) * 100)) := by
  unfold get_fraud_ratio_5min
  dsimp only
  by_cases hE : (load_data inp pt pdob now).rows.isEmpty = true
  · rw [if_pos hE]
    refine ⟨le_refl 0, by norm_num, fun _ => rfl, fun hne _ => ?_⟩
    rw [hne] at hE
    cases hE
  · rw [if_neg hE]
    by_cases hR : ((load_data inp pt pdob now).rows.filter
        (fun r => tsGe r.local_timestamp (now - 300))).isEmpty = true
    · rw [if_pos hR]
      refine ⟨le_refl 0, by norm_num, fun _ => rfl, fun _ hRf => ?_⟩
      rw [hRf] at hR
      cases hR
    · rw [if_neg hR]
      set recent := (load_data inp pt pdob now).rows.filter
          (fun r => tsGe r.local_timestamp (now - 300)) with hrecdef
      have hne : recent ≠ [] := by
        intro hnil
        rw [hnil] at hR
        exact hR rfl
      have hlen : 0 < recent.length := List.length_pos.mpr hne
      have hcount := List.countP_le_length (fun r => r.is_fraud == 1) (l := recent)
      have hq0 : (0:ℚ) ≤ (recent.countP (fun r => r.is_fraud == 1) : ℚ)
          / (recent.length : ℚ) * 100 := by positivity
      have hq1 : (recent.countP (fun r => r.is_fraud == 1) : ℚ)
          / (recent.length : ℚ) * 100 ≤ 100 := by
        have hlt : (0:ℚ) < (recent.length : ℚ) := by exact_mod_cast hlen
        have hle : ((recent.countP (fun r => r.is_fraud == 1) : ℚ)) ≤ (recent.length : ℚ) := by
          exact_mod_cast hcount
        have hdiv : (recent.countP (fun r => r.is_fraud == 1) : ℚ) / (recent.length : ℚ) ≤ 1 :=
          (div_le_one hlt).mpr hle
        linarith
      obtain ⟨hb0, hb1⟩ := pyRound2_bounds hq0 hq1
      exact ⟨hb0, hb1, fun habs => absurd habs hR, fun _ _ => rfl⟩

/-- Each age falls in at most one of the five bins, so the five per-bin
counts sum to the count of non-null in-range ages. -/
theorem sum_bin_counts (l : List Record) :
    l.countP (fun r => binOf r.age == some 0) + l.countP (fun r => binOf r.age == some 1)
      + l.countP (fun r => binOf r.age == some 2) + l.countP (fun r => binOf r.age == some 3)
      + l.countP (fun r => binOf r.age == some 4)
      = l.countP (fun r => (binOf r.age).isSome) := by
  induction l with
  | nil => rfl
  | cons r l ih =>
      simp only [List.countP_cons]
      rcases hb : binOf r.age with _ | k
      · simp [hb]
        omega
      · have hk : k < 5 := by
          rcases hx : r.age with _ | x
          · rw [hx] at hb
            simp [binOf] at hb
          · rw [hx] at hb
            simp only [binOf] at hb
            split_ifs at hb <;> simp_all <;> omega
        interval_cases k <;> simp [hb] <;> omega

/-- Sum of the five per-bin counts over the fixed bin-list form of the age
distribution. -/
theorem age_sum_eq (fr : List Record) :
    (((List.range 5).map (fun k => (ageLabels.getD k "",
        fr.countP (fun r => binOf r.age == some k)))).map Prod.snd).sum
      = fr.countP (fun r => (binOf r.age).isSome) := by
  have hsum5 : (((List.range 5).map (fun k => (ageLabels.getD k "",
        fr.countP (fun r => binOf r.age == some k)))).map Prod.snd).sum
      = fr.countP (fun r => binOf r.age == some 0)
        + (fr.countP (fun r => binOf r.age == some 1)
        + (fr.countP (fun r => binOf r.age == some 2)
        + (fr.countP (fun r => binOf r.age == some 3)
        + (fr.countP (fun r => binOf r.age == some 4) + 0)))) := rfl
  rw [hsum5]
  have hs := sum_bin_counts fr
  omega

/-- C1 (amended): on a dataset that loads non-empty, holds at least one
fraud record and has a dob column, get_age_distribution returns exactly 5
entries in the fixed label order, the count of each label being the number
of fraud records in its bin (0 when none falls there), and the counts sum
to the number of fraud records whose age is non-null and inside some bin;
when the dataset is empty or holds no fraud record the result is the empty
list instead of five zero entries; and when the dob column is absent while
a fraud record exists, the query raises (pd.cut on the all-None object age
column) instead of returning any entries. -/
theorem c1_age_distribution_amended (inp : Option RawTable) (pt pdob : String → Option Int)
    (now : Int) :
    ((load_data inp pt pdob now).rows.isEmpty = false →
      ((load_data inp pt pdob now).rows.filter (fun r => r.is_fraud == 1)).isEmpty = false →
      (load_data inp pt pdob now).hasDob = true →
      (okList (get_age_distribution inp pt pdob now)).map Prod.fst = ageLabels ∧
      (okList (get_age_distribution inp pt pdob now)).length = 5 ∧
      get_age_distribution inp pt pdob now
        = .ok ((List.range 5).map (fun k => (ageLabels.getD k "",
            ((load_data inp pt pdob now).rows.filter (fun r => r.is_fraud == 1)).countP
              (fun r => binOf r.age == some k)))) ∧
      ((okList (get_age_distribution inp pt pdob now)).map Prod.snd).sum
        = ((load_data inp pt pdob now).rows.filter (fun r => r.is_fraud == 1)).countP
            (fun r => (binOf r.age).isSome)) ∧
    (((load_data inp pt pdob now).rows.isEmpty = true ∨
      ((load_data inp pt pdob now).rows.filter (fun r => r.is_fraud == 1)).isEmpty = true) →
      get_age_distribution inp pt pdob now = .ok []) ∧
    isErr (get_age_distribution inp pt pdob now)
      = (!(load_data inp pt pdob now).hasDob
          && !((load_data inp pt pdob now).rows.filter (fun r => r.is_fraud == 1)).isEmpty) := by
  unfold get_age_distribution
  dsimp only
  by_cases hE : (load_data inp pt pdob now).rows.isEmpty = true
  · rw [if_pos hE]
    refine ⟨fun h1 _ _ => ?_, fun _ => rfl, ?_⟩
    · rw [h1] at hE
      cases hE
    · rw [List.isEmpty_iff] at hE
      rw [hE]
      simp [isErr]
  · rw [if_neg hE]
    by_cases hF : ((load_data inp pt pdob now).rows.filter (fun r => r.is_fraud == 1)).isEmpty = true
    · rw [if_pos hF]
      refine ⟨fun _ h2 _ => ?_, fun _ => rfl, ?_⟩
      · rw [h2] at hF
        cases hF
      · rw [hF]
        simp [isErr]
    · rw [if_neg hF]
      have hF2 : ((load_data inp pt pdob now).rows.filter (fun r => r.is_fraud == 1)).isEmpty
          = false := Bool.eq_false_iff.mpr hF
      by_cases hD : (load_data inp pt pdob now).hasDob = true
      · have hnd : (!(load_data inp pt pdob now).hasDob) = false := by rw [hD]; rfl
        rw [hnd, if_neg Bool.false_ne_true]
        refine ⟨fun _ _ _ => ?_, fun h => ?_, ?_⟩
        · set fr := (load_data inp pt pdob now).rows.filter (fun r => r.is_fraud == 1) with hfr
          exact ⟨rfl, rfl, rfl, age_sum_eq fr⟩
        · rcases h with h | h
          · exact absurd h hE
          · exact absurd h hF
        · simp [isErr]
      · have hD2 : (load_data inp pt pdob now).hasDob = false := Bool.eq_false_iff.mpr hD
        have hnd : (!(load_data inp pt pdob now).hasDob) = true := by rw [hD2]; rfl
        rw [if_pos hnd]
        refine ⟨fun _ _ h3 => ?_, fun h => ?_, ?_⟩
        · rw [h3] at hD2
          cases hD2
        · rcases h with h | h
          · exact absurd h hE
          · exact absurd h hF
        · rw [hD2, hF2]
          simp [isErr]

/-- C1 is false as stated: on the empty dataset (missing file) and on a
dataset with rows but no fraud record, get_age_distribution returns the
empty list, not five zero-count entries; and on a dataset with a fraud
record but no dob column it raises (pd.cut comparing the integer bin edges
with the all-None age column) instead of returning five entries. -/
theorem c1_counterexample :
    get_age_distribution none noParse noParse 0 = .ok [] ∧
    (okList (get_age_distribution none noParse noParse 0)).length ≠ 5 ∧
    get_age_distribution (some ⟨["local_timestamp", "is_fraud"],
        [["x", "0"]]⟩) noParse noParse 0 = .ok [] ∧
    isErr (get_age_distribution (some ⟨["is_fraud"], [["1"]]⟩) noParse noParse 0) = true := by
  refine ⟨rfl, by decide, rfl, by decide⟩

/-- The reverse of the stable ascending insertion sort by count is pairwise
descending by count, and so is each of its prefixes. -/
theorem sortDesc_take_pairwise {α : Type} (xs : List (α × Nat)) (n : Nat) :
    (((List.insertionSort (fun a b => a.2 ≤ b.2) xs).reverse).take n).Pairwise
      (fun a b => b.2 ≤ a.2) := by
  apply List.Pairwise.sublist (List.take_sublist _ _)
  rw [List.pairwise_reverse]
  haveI : IsTotal (α × Nat) (fun a b => a.2 ≤ b.2) := ⟨fun a b => Nat.le_total a.2 b.2⟩
  haveI : IsTrans (α × Nat) (fun a b => a.2 ≤ b.2) := ⟨fun a b c hab hbc => Nat.le_trans hab hbc⟩
  exact List.sorted_insertionSort _ _

/-- C4 (amended): every top-n query is a pure function of the loaded dataset
(hence deterministic for a fixed input file and instant), returns at most n
entries and orders them by non-increasing count; but within equal counts the
order is not first-seen order in the source data (see the counterexample). -/
theorem c4_topn_sorted (inp : Option RawTable) (pt pdob : String → Option Int)
    (now : Int) (n : Nat) :
    ((get_top_categories inp pt pdob now n).length ≤ n ∧
      (get_top_categories inp pt pdob now n).Pairwise (fun a b => b.2 ≤ a.2)) ∧
    ((get_top_states inp pt pdob now n).length ≤ n ∧
      (get_top_states inp pt pdob now n).Pairwise (fun a b => b.2 ≤ a.2)) ∧
    ((okList (get_top_merchant_locations inp pt pdob now n)).length ≤ n ∧
      (okList (get_top_merchant_locations inp pt pdob now n)).Pairwise
        (fun a b => b.count ≤ a.count)) := by
  refine ⟨?_, ?_, ?_⟩
  · unfold get_top_categories
    dsimp only
    split
    · simp
    · unfold value_counts
      exact ⟨List.length_take_le _ _, sortDesc_take_pairwise _ _⟩
  · unfold get_top_states
    dsimp only
    split
    · simp
    · unfold value_counts
      exact ⟨List.length_take_le _ _, sortDesc_take_pairwise _ _⟩
  · unfold get_top_merchant_locations
    dsimp only
    split
    · simp [okList]
    · split
      · simp [okList]
      · split
        · simp [okList]
        · split
          · simp [okList]
          · unfold okList
            dsimp only
            constructor
            · rw [List.length_map]
              exact List.length_take_le _ _
            · rw [List.pairwise_map]
              exact sortDesc_take_pairwise _ _

/-- C4 is false as stated: in get_top_merchant_locations the groupby with
sort=True orders the tied groups by key before the count sort, so first-seen
order is lost.  With three tied merchants first seen in the order c, a, b,
the sorted keys are a, b, c and the model output is c, b, a; had the
descending count sort kept instead of reversed the order of the three equal
counts, the output would be a, b, c — under neither resolution is it the
first-seen order c, a, b, so the ranking cannot be by first appearance. -/
theorem c4_counterexample :
    (okList (get_top_merchant_locations (some tiedMerchantsTable) noParse noParse 0 5)).map
        MerchLoc.merchant = ["c", "b", "a"] ∧
    (firstSeenKeys ((coordFraudRows (load_data (some tiedMerchantsTable) noParse noParse 0)).map
        Record.merchant)) = ["c", "a", "b"] ∧
    (["c", "b", "a"] : List String) ≠ ["c", "a", "b"] := by
  refine ⟨by decide, by decide, by decide⟩
